import Mathlib

/-!
Shallow embedding of the axis-conversion and pooling-padding core of an
ONNX-to-TensorFlow graph converter (source files
`onnx2tf/utils/common_functions.py` and `onnx2tf/ops/ReduceMin.py`),
together with theorems settling the specification claims about it.

Modelling conventions:
* Python integers are `ℤ`; quantities that pass through Python float
  division are `ℚ` (every input appearing in a theorem below is small
  enough that IEEE double arithmetic is exact on it, so rational
  arithmetic coincides with the float computation);
* operations that can raise a Python exception return `Except String α`,
  with the error string naming the exception;
* a tensor is represented by the data the embedded logic actually
  consumes: its shape for the padding functions, its element value for
  the asin/acos builders, its dtype for the argmax builder.
-/

/-- Python list indexing `l[i]` with an `int` index (used by
`convert_axis`, common_functions.py line 100): a negative index counts
from the end; an index out of range raises `IndexError`. -/
def pyIndexInt (l : List ℤ) (i : ℤ) : Except String ℤ :=
  let j : ℤ := if i < 0 then i + l.length else i
  if 0 ≤ j ∧ j < l.length then .ok (l.getD j.toNat 0)
  else .error ("IndexError: list index out of range")

/-- Axis-conversion table built by `convert_axis` for `tensor_rank > 2`
(common_functions.py line 99):
`[0] + [tensor_rank - 1] + [i for i in range(1, tensor_rank - 1)]`. -/
def convertion_table (tensor_rank : ℕ) : List ℤ :=
  0 :: ((tensor_rank : ℤ) - 1) :: (List.range (tensor_rank - 2)).map (fun (i : ℕ) => (i : ℤ) + 1)

/-- `convert_axis` (common_functions.py lines 67-102): normalize a negative
axis by adding the rank, then for `tensor_rank > 2` look the normalized
axis up in the conversion table. -/
def convert_axis (axis : ℤ) (tensor_rank : ℕ) : Except String ℤ :=
  let converted_axis : ℤ := if axis ≥ 0 then axis else axis + tensor_rank
  if 2 < tensor_rank then pyIndexInt (convertion_table tensor_rank) converted_axis
  else .ok converted_axis

/-- A Python value appearing as the `axis` argument of `convert_axis` in
`ReduceMin.make_node`: an `int` or a `list` of ints. -/
inductive PyAxisVal where
  | int (i : ℤ)
  | list (l : List ℤ)
deriving DecidableEq

/-- `convert_axis` applied to a Python value: an `int` runs the function
above; a `list` reaches line 88 (`axis if axis >= 0 else ...`), where
comparing a list with the integer `0` raises `TypeError` in Python 3. -/
def convert_axis_pyval (axis : PyAxisVal) (tensor_rank : ℕ) : Except String PyAxisVal :=
  match axis with
  | .int i => (convert_axis i tensor_rank).map PyAxisVal.int
  | .list _ => .error ("TypeError: unorderable types list and int")

/-- Axis handling of `ReduceMin.make_node` (ops/ReduceMin.py lines 36-42):
`axes = graph_node.attrs.get('axes', [-1])` (`none` models an absent
attribute), then line 38 passes the whole list as the `axis` keyword of
`convert_axis`, and line 42 converts element-wise by list comprehension. -/
def reducemin_axes (axes_attr : Option (List ℤ)) (tensor_rank : ℕ) : Except String (List ℤ) := do
  let axes : List ℤ := axes_attr.getD [-1]
  let axes2 ← convert_axis_pyval (.list axes) tensor_rank
  match axes2 with
  | .list l => l.mapM (fun idx => convert_axis idx tensor_rank)
  | .int _ => .error ("TypeError: int object is not iterable")

/-- A graph-surgeon operand: a constant carrying a materialised value array
(tracked by its shape, which is what the transposition acts on), or a
symbolic variable. -/
inductive Operand where
  | const (shape : List ℕ)
  | var
deriving DecidableEq

/-- Shape effect of `numpy.ndarray.transpose(axes)`: numpy requires `axes`
to be a permutation of `0 .. rank-1` and raises `ValueError` otherwise;
the result shape is the axes-indexed rearrangement of the input shape. -/
def np_transpose_shape (shape : List ℕ) (axes : List ℕ) : Except String (List ℕ) :=
  if axes.length = shape.length ∧ axes.Nodup ∧ (∀ a ∈ axes, a < shape.length) then
    .ok (axes.map (fun a => shape.getD a 0))
  else .error ("ValueError: axes do not match array")

/-- Transposition table of `get_constant_or_variable`
(common_functions.py line 31):
`[0] + [i for i in range(2, tensor_rank - 2)] + [1]`. -/
def gcov_table (tensor_rank : ℕ) : List ℕ :=
  0 :: ((List.range' 2 (tensor_rank - 4)) ++ [1])

/-- `get_constant_or_variable` (common_functions.py lines 12-35): a
constant whose rank exceeds 2 is transposed with `gcov_table`; any other
operand passes through unchanged. -/
def get_constant_or_variable (const_or_var : Operand) : Except String Operand :=
  match const_or_var with
  | .const shape =>
      if 2 < shape.length then
        (np_transpose_shape shape (gcov_table shape.length)).map Operand.const
      else .ok (.const shape)
  | .var => .ok .var

/-- The op table threaded through the shared SAME-padding algorithm
(`pad_ops` namedtuple, common_functions.py lines 340-343). -/
structure pad_ops where
  max_op : ℚ → ℚ → ℚ
  ceil_op : ℚ → ℚ
  floor_op : ℚ → ℚ
  cast_int_op : ℚ → ℤ

/-- Conversion to int64 by truncation toward zero: the behaviour of both
`numpy.ndarray.astype(np.int64)` and `tf.cast(·, tf.int64)` on the finite
values occurring here (every value it is applied to in the source is
already integral). -/
def trunc_to_int64 (q : ℚ) : ℤ := if 0 ≤ q then ⌊q⌋ else ⌈q⌉

/-- `pad_numpy_ops` (common_functions.py lines 344-349):
`np.maximum`, `np.ceil`, `np.floor`, `astype(np.int64)`. On the rational
values arising here these are the exact max/ceil/floor/truncate. -/
def pad_numpy_ops : pad_ops :=
  ⟨fun a b => max a b, fun q => (⌈q⌉ : ℚ), fun q => (⌊q⌋ : ℚ), trunc_to_int64⟩

/-- `pad_tf_ops` (common_functions.py lines 350-355): `tf.maximum`,
`tf.math.ceil`, `tf.math.floor`, `tf.cast(·, tf.int64)`, computing the
same functions as the numpy table on these values. -/
def pad_tf_ops : pad_ops :=
  ⟨fun a b => max a b, fun q => (⌈q⌉ : ℚ), fun q => (⌊q⌋ : ℚ), trunc_to_int64⟩

/-- Lower-casing of one ASCII character, the effect of Python `str.lower`
on the mode strings used here. -/
def py_char_lower (c : Char) : Char :=
  if ('A' ≤ c ∧ c ≤ 'Z') then Char.ofNat (c.toNat + 32) else c

/-- Python `s.lower()` on ASCII mode strings. -/
def py_lower (s : String) : String := ⟨s.data.map py_char_lower⟩

/-- Python `s.startswith(pre)`. -/
def py_startswith (s pre : String) : Bool := pre.data.isPrefixOf s.data

/-- The first definition of `calc_pads_same_pooling`
(common_functions.py lines 357-427). At module load time this binding is
immediately shadowed by the second definition of the same name (lines
472-494), so no caller can reach it any more; it is embedded here because
it is the algorithm the live definition attempts to delegate to, and the
algorithm the specification describes. Loop indexing follows the spec
invariant that `spatial_size = len(kernel_shape)` is consistent across all
parameter lists, so `getD` stands for in-range list indexing. -/
def calc_pads_same_pooling_shadowed (in_spatial_shape kernel_shape strides dilations : List ℤ)
    (padding : String) (padding_ops : pad_ops) (pads_order : ℕ) : List ℤ :=
  let spatial_size := kernel_shape.length
  (List.range spatial_size).foldl (fun pads i =>
    let in_size : ℤ := in_spatial_shape.getD i 0
    let filter_size : ℤ := (kernel_shape.getD i 0 - 1) * dilations.getD i 0 + 1
    let out_size : ℤ :=
      padding_ops.cast_int_op (padding_ops.ceil_op ((in_size : ℚ) / ((strides.getD i 0 : ℤ) : ℚ)))
    let pad_along_axis : ℚ :=
      padding_ops.max_op (((out_size - 1) * strides.getD i 0 + filter_size - in_size : ℤ) : ℚ) 0
    let pad_op := if py_lower padding = "same_lower" then padding_ops.ceil_op else padding_ops.floor_op
    let pad_begin : ℤ := padding_ops.cast_int_op (pad_op (pad_along_axis / 2))
    let pad_along_int : ℤ := padding_ops.cast_int_op pad_along_axis
    let pad_end : ℤ := pad_along_int - pad_begin
    let pads2 := pads.set (i * pads_order) pad_begin
    pads2.set (i * pads_order + (if pads_order = 1 then spatial_size else 1)) pad_end)
    (List.replicate (2 * spatial_size) 0)

/-- The second, live definition of `calc_pads_same_pooling`
(common_functions.py lines 472-494). Its body selects an op table and then
calls the module-level name `calc_pads_same_pooling` with the keyword
arguments `padding_ops` and `pads_order`; after module load that name is
bound to this very definition, whose signature has no such parameters, so
every call raises `TypeError` before any padding arithmetic runs. -/
def calc_pads_same_pooling (kernel_shape strides dilations : List ℤ) (padding : String)
    (in_spatial_shape : List ℤ) (is_known_shape : Bool) : Except String (List ℤ) :=
  .error ("TypeError: calc_pads_same_pooling got an unexpected keyword argument padding_ops")

/-- `calc_pads_explicit_pooling` (common_functions.py lines 430-443):
interleaves the ONNX-order explicit pad list `[b0..b(n-1), e0..e(n-1)]`
into `[b0, e0, b1, e1, ...]`. The loop reads `padding[i]` and
`padding[i + spatial_size]` for `i < spatial_size`, so Python completes it
without `IndexError` exactly when `2 * spatial_size ≤ len(padding)`. -/
def calc_pads_explicit_pooling (padding : List ℤ) (spatial_size : ℕ) : Except String (List ℤ) :=
  if 2 * spatial_size ≤ padding.length then
    .ok ((List.range spatial_size).flatMap
      (fun i => [padding.getD i 0, padding.getD (i + spatial_size) 0]))
  else .error ("IndexError: list index out of range")

/-- Numpy branch of the ceil-mode pad size (common_functions.py line 464):
`(np.ceil(out_size) - np.floor(out_size)).astype(np.int64)`. -/
def np_ceil_sub_floor (q : ℚ) : ℤ := ⌈q⌉ - ⌊q⌋

/-- Tensorflow branch of the ceil-mode pad size (line 466):
`tf.cast(tf.math.ceil(out_size) - tf.math.floor(out_size), tf.int64)`. -/
def tf_ceil_sub_floor (q : ℚ) : ℤ := ⌈q⌉ - ⌊q⌋

/-- `calc_pads_ceil_mode_pooling` (common_functions.py lines 446-469).
The loop reads index `i` of each parameter list for `i < spatial_size`;
the guard reproduces the condition under which Python completes the loop
without `IndexError`. -/
def calc_pads_ceil_mode_pooling (in_spatial_shape : List ℤ) (spatial_size : ℕ)
    (kernel_shape dilations strides : List ℤ) (is_known_shape : Bool) :
    Except String (List ℤ) :=
  if spatial_size ≤ in_spatial_shape.length ∧ spatial_size ≤ kernel_shape.length ∧
      spatial_size ≤ dilations.length ∧ spatial_size ≤ strides.length then
    .ok ((List.range spatial_size).flatMap (fun i =>
      let dim_size : ℤ := in_spatial_shape.getD i 0
      let filter_size : ℤ := (kernel_shape.getD i 0 - 1) * dilations.getD i 0 + 1
      let out_size : ℚ := ((dim_size - filter_size : ℤ) : ℚ) / ((strides.getD i 0 : ℤ) : ℚ)
      let pad_size : ℤ :=
        if is_known_shape then np_ceil_sub_floor out_size else tf_ceil_sub_floor out_size
      [0, pad_size * strides.getD i 0]))
  else .error ("IndexError: list index out of range")

/-- `np.zeros([spatial_size * 2], np.int64)` (common_functions.py
line 509), as an int64 vector. -/
def np_zeros (n : ℕ) : List ℤ := List.replicate n 0

/-- `tf.zeros([spatial_size * 2], tf.int64)` (line 511), as an int64
vector. -/
def tf_zeros (n : ℕ) : List ℤ := List.replicate n 0

/-- Elementwise `pads += delta` on an int64 vector (numpy broadcast add /
tf add): raises unless the two lengths agree. -/
def vec_add (a b : List ℤ) : Except String (List ℤ) :=
  if a.length = b.length then .ok (List.zipWith (fun x y => x + y) a b)
  else .error ("ValueError: operands could not be broadcast together")

/-- The `padding` parameter of the pooling helpers: an explicit list of
ints, or a mode string. -/
inductive Padding where
  | list (l : List ℤ)
  | str (s : String)
deriving DecidableEq

/-- `calc_pads_pooling` (common_functions.py lines 497-544): zero-init the
pads, add explicit or SAME pads, then - when `ceil_mode` is set and the
mode is not a `same*` string - add the ceil-mode pads computed over the
effective spatial shape. -/
def calc_pads_pooling (kernel_shape strides dilations : List ℤ) (padding : Padding)
    (is_known_shape : Bool) (spatial_size : ℕ) (in_spatial_shape : List ℤ)
    (ceil_mode : Bool) : Except String (List ℤ) :=
  let pads0 : List ℤ :=
    if is_known_shape then np_zeros (spatial_size * 2) else tf_zeros (spatial_size * 2)
  let phase1 : Except String (List ℤ) :=
    match padding with
    | .list l => (calc_pads_explicit_pooling l spatial_size).bind (vec_add pads0)
    | .str s =>
        if py_startswith (py_lower s) ("same") then
          (calc_pads_same_pooling kernel_shape strides dilations s in_spatial_shape
            is_known_shape).bind (vec_add pads0)
        else .ok pads0
  let ceil_applies : Bool :=
    match padding with
    | .list _ => true
    | .str s => !(py_startswith (py_lower s) ("same"))
  phase1.bind (fun pads =>
    if ceil_mode && ceil_applies then
      if spatial_size ≤ in_spatial_shape.length ∧ 2 * spatial_size ≤ pads.length then
        let new_spatial_shape : List ℤ := (List.range spatial_size).map (fun i =>
          in_spatial_shape.getD i 0 + pads.getD (i * 2) 0 + pads.getD (i * 2 + 1) 0)
        (calc_pads_ceil_mode_pooling new_spatial_shape spatial_size kernel_shape dilations
          strides is_known_shape).bind (vec_add pads)
      else .error ("IndexError: list index out of range")
    else .ok pads)

/-- Result of `pad_input`: the input tensor returned unchanged, or a
`tf.pad` op carrying the per-dimension `[begin, end]` paddings and the
constant fill value. -/
inductive PadResult where
  | unchanged
  | padded (tf_paddings : List (ℤ × ℤ)) (constant_value : ℚ)
deriving DecidableEq

/-- `pad_input` (common_functions.py lines 547-597), tracked at the level
of the input shape (`tf_shape`, lines 39-64, returns exactly the shape for
a fully-defined tensor). The spatial shape is read from dimensions
`1 .. len(kernel_shape)` (line 570), while the emitted padding spec pins
`[0,0]` on the first two dimensions and lays the computed pads on the
remaining ones (lines 586-589). Indexing `pads[i*2]`/`pads[i*2+1]` is in
range because `calc_pads_pooling` always returns `2*spatial_size` pads. -/
def pad_input (input_shape : List ℤ) (is_known_shape : Bool) (kernel_shape : List ℤ)
    (ceil_mode : Bool) (spatial_size : ℕ) (strides dilations : List ℤ)
    (padding : Padding) (padding_constant : ℚ) : Except String PadResult :=
  if ceil_mode = false ∧
      (padding = Padding.list (List.replicate (spatial_size * 2) 0) ∨
        padding = Padding.str ("VALID")) then
    .ok .unchanged
  else
    let in_spatial_shape := (input_shape.drop 1).take kernel_shape.length
    (calc_pads_pooling kernel_shape strides dilations padding is_known_shape spatial_size
      in_spatial_shape ceil_mode).bind (fun pads =>
        if is_known_shape = true ∧ ∀ p ∈ pads, p = 0 then .ok .unchanged
        else
          .ok (.padded
            ((0, 0) :: (0, 0) :: (List.range spatial_size).map
              (fun i => (pads.getD (i * 2) 0, pads.getD (i * 2 + 1) 0)))
            padding_constant))

/-- Shape of `tf.pad(t, paddings, mode=CONSTANT)`: `paddings` must carry
one `[begin, end]` row per input dimension, and each output dimension is
`begin + size + end`. -/
def tf_pad_shape (input_shape : List ℤ) (tf_paddings : List (ℤ × ℤ)) : Except String (List ℤ) :=
  if input_shape.length = tf_paddings.length then
    .ok (List.zipWith (fun d p => p.1 + d + p.2) input_shape tf_paddings)
  else .error ("ValueError: paddings rank mismatch")

/-- The element-type information `alternative_argmax` inspects. -/
structure TfDType where
  is_floating : Bool
  is_integer : Bool
deriving DecidableEq

/-- The max-mask construction chosen by `alternative_argmax`. -/
inductive ArgmaxMask where
  | floatMask (eps : ℚ)
  | intMask
deriving DecidableEq

/-- Dtype dispatch of `alternative_argmax` (common_functions.py lines
195-213): `eps = epsilon if epsilon else 1e-6` (Python truthiness, so both
`None` and `0.0` fall back to `1e-6`); a floating dtype builds the epsilon
mask, an integer dtype builds the 0/1 mask, and any other dtype prints a
diagnostic and fails `assert False` - whether or not `epsilon` was
supplied. -/
def alternative_argmax_mask (dtype : TfDType) (epsilon : Option ℚ) : Except String ArgmaxMask :=
  let eps : ℚ :=
    match epsilon with
    | some e => if e = 0 then 1 / 1000000 else e
    | none => 1 / 1000000
  if dtype.is_floating then .ok (.floatMask eps)
  else if dtype.is_integer then .ok .intMask
  else .error ("AssertionError: Please specify epsilon for unknown input data type.")

/-- The polynomial accumulated into `y` by `alternative_asin` and
`alternative_acos` (common_functions.py lines 293-299 and 326-332). -/
def asin_poly (x : ℝ) : ℝ :=
  ((-0.0187293 * x + 0.0742610) * x - 0.2121144) * x + 1.5707288

/-- The rational pi constant both builders multiply with
(common_functions.py lines 300 and 335). -/
def py_pi : ℝ := 3.14159265358979

/-- `alternative_asin` (common_functions.py lines 273-302) over the reals.
`neg = (min(x,0) * -1) / abs(x)` is the IEEE quotient `0/0 = NaN` whenever
`abs(x) = 0`, and `sqrt(1 - abs(x))` is NaN when `abs(x) > 1`; in either
case the NaN propagates through every later term of the result, which
`none` models. On all other inputs the computation is the finite value the
float code computes. -/
noncomputable def alternative_asin (x : ℝ) : Option ℝ :=
  if |x| = 0 ∨ 1 - |x| < 0 then none
  else
    let xa := |x|
    let neg := (min x 0 * (-1)) / xa
    let y := py_pi * 0.5 - Real.sqrt (1 - xa) * asin_poly xa
    some (y - 2 * neg * y)

/-- `alternative_acos` (common_functions.py lines 306-336) over the reals,
with the same NaN convention as `alternative_asin`. -/
noncomputable def alternative_acos (x : ℝ) : Option ℝ :=
  if |x| = 0 ∨ 1 - |x| < 0 then none
  else
    let xa := |x|
    let neg := (min x 0 * (-1)) / xa
    let y := asin_poly xa * Real.sqrt (1 - xa)
    let y2 := y * (1 - 2 * neg)
    some (neg * py_pi + y2)

/-! Helper lemmas shared by several claim theorems. -/

/-- Ceiling as a negated floor, used to evaluate concrete ceilings with the
floor-evaluating `norm_num` extension. -/
theorem ceil_via_floor (q : ℚ) : ⌈q⌉ = -⌊-q⌋ := by rw [Int.floor_neg, neg_neg]

/-- Binding the identity continuation over `Except` changes nothing. -/
theorem except_bind_ok {ε α : Type} (x : Except ε α) : x.bind (fun a => Except.ok a) = x := by
  cases x <;> rfl

/-- A successful `vec_add` keeps the length of its first argument. -/
theorem vec_add_length {a b c : List ℤ} (h : vec_add a b = .ok c) : c.length = a.length := by
  unfold vec_add at h
  by_cases hl : a.length = b.length
  · rw [if_pos hl] at h
    injection h with h2
    subst h2
    simp [List.length_zipWith, hl]
  · rw [if_neg hl] at h
    exact absurd h (by simp)

/-- Length of the per-axis two-slot flatMap used by the explicit and
ceil-mode pad builders. -/
theorem flatMap_pairs_length (n : ℕ) (f g : ℕ → ℤ) :
    ((List.range n).flatMap (fun i => [f i, g i])).length = 2 * n := by
  induction n with
  | zero => simp
  | succ m ih => simp [List.range_succ, ih]; omega

/-- Reading back an element of a map over `List.range`. -/
theorem getD_map_range (n i : ℕ) (f : ℕ → ℤ) (h : i < n) :
    (((List.range n).map f).getD i 0) = f i := by
  simp [List.getElem?_range, h]

/-- C1: for kernel_shape=[3], strides=[2], dilations=[1], in_spatial_shape=[10],
spatial_size=1, is_known_shape=true, ceil_mode=false, the live
`calc_pads_pooling` does not return the claimed pads: its `same_upper` (and
`same_lower`) branch raises `TypeError`, because the module-level name
`calc_pads_same_pooling` is bound to the second definition, which its own
body calls with keyword arguments it does not accept. The first (shadowed)
definition - the algorithm the claim describes - does produce `[0, 1]` for
`same_upper` and `[1, 0]` for `same_lower` at these inputs. -/
theorem C1_same_upper_lower_pads :
    calc_pads_pooling [3] [2] [1] (.str ("same_upper")) true 1 [10] false =
      .error ("TypeError: calc_pads_same_pooling got an unexpected keyword argument padding_ops") ∧
    calc_pads_pooling [3] [2] [1] (.str ("same_lower")) true 1 [10] false =
      .error ("TypeError: calc_pads_same_pooling got an unexpected keyword argument padding_ops") ∧
    calc_pads_same_pooling_shadowed [10] [3] [2] [1] ("same_upper") pad_numpy_ops 2 = [0, 1] ∧
    calc_pads_same_pooling_shadowed [10] [3] [2] [1] ("same_lower") pad_numpy_ops 2 = [1, 0] := by
  refine ⟨rfl, rfl, ?_, ?_⟩
  · simp [calc_pads_same_pooling_shadowed, pad_numpy_ops, trunc_to_int64, List.range_succ,
      ceil_via_floor, show (py_lower ("same_upper") = "same_lower") = False from by decide]
    norm_num
  · simp [calc_pads_same_pooling_shadowed, pad_numpy_ops, trunc_to_int64, List.range_succ,
      ceil_via_floor, show (py_lower ("same_lower") = "same_lower") = True from by decide]
    norm_num

/-- C2: for every ReduceMin node and every well-formed integer axes
attribute (including the absent-attribute default `[-1]`), the axis
conversion step of `make_node` does not succeed: line 38 passes the whole
axes list as the `axis` argument of `convert_axis`, whose first operation
compares the list against the integer 0 and raises `TypeError`, before the
per-element conversion of line 42 can run. -/
theorem C2_reducemin_axes_type_error :
    ∀ (axes_attr : Option (List ℤ)) (tensor_rank : ℕ),
      reducemin_axes axes_attr tensor_rank =
        .error ("TypeError: unorderable types list and int") :=
  fun _ _ => rfl

/-- C5: on every concrete integer input, `calc_pads_pooling` with
`is_known_shape = true` (numpy backend) and with `is_known_shape = false`
(tensorflow backend) produce identical outcomes: identical integer pads
on every input where the computation completes, and the identical
exception on the inputs where it does not. -/
theorem C5_backend_equivalence :
    ∀ (kernel_shape strides dilations : List ℤ) (padding : Padding) (spatial_size : ℕ)
      (in_spatial_shape : List ℤ) (ceil_mode : Bool),
      calc_pads_pooling kernel_shape strides dilations padding true spatial_size
        in_spatial_shape ceil_mode =
      calc_pads_pooling kernel_shape strides dilations padding false spatial_size
        in_spatial_shape ceil_mode := by
  intro kernel_shape strides dilations padding spatial_size in_spatial_shape ceil_mode
  cases padding <;> rfl

/-- C8, counterexample: it is not the case that `alternative_argmax` fails
exactly on non-floating non-integer dtypes *without* a caller-supplied
epsilon: with such a dtype and `epsilon = 1/2` supplied, the construction
still fails its assertion. -/
theorem C8_counterexample_epsilon :
    ¬ (∀ (dtype : TfDType) (epsilon : Option ℚ),
        (∃ e, alternative_argmax_mask dtype epsilon = .error e) ↔
          (dtype.is_floating = false ∧ dtype.is_integer = false ∧ epsilon = none)) := by
  intro h
  have h2 := (h ⟨false, false⟩ (some (1 / 2))).1
    ⟨"AssertionError: Please specify epsilon for unknown input data type.", rfl⟩
  exact Option.noConfusion h2.2.2

/-- C8, amended: `alternative_argmax` fails with its assertion error if and
only if the input element type is neither floating-point nor integer -
regardless of whether the caller supplied epsilon; a supplied epsilon does
not avoid the failure. -/
theorem C8_assert_amended :
    ∀ (dtype : TfDType) (epsilon : Option ℚ),
      (∃ e, alternative_argmax_mask dtype epsilon = .error e) ↔
        (dtype.is_floating = false ∧ dtype.is_integer = false) := by
  intro dtype epsilon
  obtain ⟨f, i⟩ := dtype
  cases f <;> cases i <;> simp [alternative_argmax_mask]

/-- C9: `pad_input` reads the spatial input shape from dimensions
`1..spatial_size` but emits the computed pads on dimensions
`2..spatial_size+1`. At input shape `[1, 5, 2]` with `spatial_size = 1`,
explicit padding `[1, 1]`, the emitted pad spec is
`[[0,0], [0,0], [1,1]]`: dimension 1 - the dimension whose size (5) was
read as the spatial shape - is left unchanged, while dimension 2 (size 2,
outside `1..spatial_size`) is padded to size 4. -/
theorem C9_padded_dims_mismatch :
    pad_input [1, 5, 2] true [2] false 1 [1] [1] (.list [1, 1]) 0 =
      .ok (.padded [(0, 0), (0, 0), (1, 1)] 0) ∧
    tf_pad_shape [1, 5, 2] [(0, 0), (0, 0), (1, 1)] = .ok [1, 5, 4] := ⟨rfl, rfl⟩

/-- Length of the axis-conversion table. -/
theorem convertion_table_length (r : ℕ) : (convertion_table r).length = r - 2 + 2 := by
  simp [convertion_table]

/-- Entry `k ≥ 2` of the axis-conversion table is `k - 1`. -/
theorem convertion_table_getD (r k : ℕ) (h2 : 2 ≤ k) (hk : k < r) :
    (convertion_table r).getD k 0 = (k : ℤ) - 1 := by
  obtain ⟨m, rfl⟩ : ∃ m, k = m + 2 := ⟨k - 2, by omega⟩
  show (convertion_table r).getD (m + 1 + 1) 0 = _
  rw [convertion_table, List.getD_cons_succ, List.getD_cons_succ]
  rw [getD_map_range (r - 2) m _ (by omega)]
  push_cast
  ring

/-- C3, counterexample: `convert_axis(tensor_rank - 1, tensor_rank) = 1`
fails already at `tensor_rank = 4`, where the table `[0, 3, 1, 2]` sends
axis 3 to 2. -/
theorem C3_counterexample_rank4 :
    ¬ (∀ (tensor_rank : ℕ), 2 < tensor_rank →
        convert_axis ((tensor_rank : ℤ) - 1) tensor_rank = .ok 1 ∧
        convert_axis 0 tensor_rank = .ok 0) := by
  intro h
  have h4 := (h 4 (by norm_num)).1
  have hv : convert_axis (((4 : ℕ) : ℤ) - 1) 4 = .ok 2 := rfl
  rw [hv] at h4
  injection h4 with h5
  exact absurd h5 (by decide)

/-- C3, amended: for every `tensor_rank > 2`,
`convert_axis(tensor_rank - 1, tensor_rank)` equals `tensor_rank - 2`
(which is 1 exactly when `tensor_rank = 3`), and
`convert_axis(0, tensor_rank)` equals 0. -/
theorem C3_axis_conversion_amended : ∀ (tensor_rank : ℕ), 2 < tensor_rank →
    convert_axis ((tensor_rank : ℤ) - 1) tensor_rank = .ok ((tensor_rank : ℤ) - 2) ∧
    convert_axis 0 tensor_rank = .ok 0 := by
  intro r hr
  have hlen : (convertion_table r).length = r - 2 + 2 := convertion_table_length r
  constructor
  · simp only [convert_axis, pyIndexInt]
    rw [if_pos (show ((r : ℤ) - 1) ≥ 0 by omega), if_pos hr,
      if_neg (show ¬ ((r : ℤ) - 1 < 0) by omega),
      if_pos (show (0 : ℤ) ≤ (r : ℤ) - 1 ∧ (r : ℤ) - 1 < ((convertion_table r).length : ℤ) by
        rw [hlen]; omega)]
    rw [show ((r : ℤ) - 1).toNat = r - 1 by omega]
    rw [convertion_table_getD r (r - 1) (by omega) (by omega)]
    congr 1
    omega
  · simp only [convert_axis, pyIndexInt]
    rw [if_pos (show (0 : ℤ) ≥ 0 by omega), if_pos hr,
      if_neg (show ¬ ((0 : ℤ) < 0) by omega),
      if_pos (show (0 : ℤ) ≤ 0 ∧ (0 : ℤ) < ((convertion_table r).length : ℤ) by rw [hlen]; omega)]
    simp [convertion_table]

/-- C3, witness: the amended statement instantiated at `tensor_rank = 5`. -/
theorem C3_witness : convert_axis (((5 : ℕ) : ℤ) - 1) 5 = .ok (((5 : ℕ) : ℤ) - 2) ∧
    convert_axis 0 5 = .ok 0 :=
  C3_axis_conversion_amended 5 (by norm_num)

/-- C4: for every constant operand of rank greater than 2,
`get_constant_or_variable` does not return a permuted array: the table
`[0] + [2 .. rank-3] + [1]` has length `rank - 2` (rank ≥ 4) or 2
(rank = 3), never `rank`, so `values.transpose(convertion_table)` raises
`ValueError` for every such constant. -/
theorem C4_const_transpose_valueerror : ∀ (shape : List ℕ), 2 < shape.length →
    get_constant_or_variable (.const shape) = .error ("ValueError: axes do not match array") := by
  intro shape h
  have hlen : (gcov_table shape.length).length = shape.length - 4 + 2 := by
    simp [gcov_table]
  have hne : ¬ ((gcov_table shape.length).length = shape.length ∧
      (gcov_table shape.length).Nodup ∧ ∀ a ∈ gcov_table shape.length, a < shape.length) := by
    rintro ⟨h1, -⟩
    omega
  simp only [get_constant_or_variable, if_pos h, np_transpose_shape, if_neg hne]
  rfl

/-- C4, witness: the failure at the concrete rank-3 constant shape
`[1, 2, 3]`. -/
theorem C4_witness :
    get_constant_or_variable (.const [1, 2, 3]) = .error ("ValueError: axes do not match array") :=
  C4_const_transpose_valueerror [1, 2, 3] (by norm_num)

/-- C6: `pad_input` returns its input unchanged (no pad op emitted) when
`ceil_mode` is false and the padding is the all-zero explicit list of
length `2*spatial_size` or the literal `VALID` string; and likewise when
the shape is known and every pad computed by `calc_pads_pooling` is
zero. -/
theorem C6_pad_input_noop :
    ∀ (input_shape : List ℤ) (is_known_shape : Bool) (kernel_shape : List ℤ) (ceil_mode : Bool)
      (spatial_size : ℕ) (strides dilations : List ℤ) (padding : Padding) (c : ℚ),
      ((ceil_mode = false ∧
          (padding = Padding.list (List.replicate (spatial_size * 2) 0) ∨
            padding = Padding.str ("VALID"))) →
        pad_input input_shape is_known_shape kernel_shape ceil_mode spatial_size strides
          dilations padding c = .ok .unchanged) ∧
      (∀ pads,
        calc_pads_pooling kernel_shape strides dilations padding true spatial_size
          ((input_shape.drop 1).take kernel_shape.length) ceil_mode = .ok pads →
        (∀ p ∈ pads, p = 0) →
        pad_input input_shape true kernel_shape ceil_mode spatial_size strides dilations
          padding c = .ok .unchanged) := by
  intro input_shape is_known_shape kernel_shape ceil_mode spatial_size strides dilations padding c
  constructor
  · intro h
    unfold pad_input
    rw [if_pos h]
  · intro pads hcalc hz
    unfold pad_input
    by_cases hfast : ceil_mode = false ∧
        (padding = Padding.list (List.replicate (spatial_size * 2) 0) ∨
          padding = Padding.str ("VALID"))
    · rw [if_pos hfast]
    · rw [if_neg hfast]
      simp only [hcalc, Except.bind]
      rw [if_pos ⟨trivial, hz⟩]

/-- C6, witness: both no-op paths exercised concretely - the all-zero
explicit list fast path, and the post-computation all-pads-zero check (via
an unrecognised mode string, which leaves all pads zero). -/
theorem C6_witness :
    pad_input [1, 4, 2] true [2] false 1 [1] [1] (.list [0, 0]) 0 = .ok .unchanged ∧
    pad_input [1, 4, 2] true [2] false 1 [1] [1] (.str ("NOTAMODE")) 0 = .ok .unchanged := by
  constructor
  · exact (C6_pad_input_noop [1, 4, 2] true [2] false 1 [1] [1] (.list [0, 0]) 0).1
      (by exact ⟨rfl, Or.inl rfl⟩)
  · exact (C6_pad_input_noop [1, 4, 2] true [2] false 1 [1] [1] (.str ("NOTAMODE")) 0).2 [0, 0]
      rfl (by decide)

/-- Pointwise-equal per-axis builders produce the same flatMap over
`List.range`. -/
theorem flatMap_range_congr (n : ℕ) (f g : ℕ → List ℤ) (h : ∀ i < n, f i = g i) :
    (List.range n).flatMap f = (List.range n).flatMap g := by
  induction n with
  | zero => simp
  | succ m ih =>
    simp only [List.range_succ, List.flatMap_append]
    rw [ih (fun i hi => h i (by omega))]
    simp [h m (by omega)]

/-- A flatMap of two-element blocks over `List.range n` has length `2*n`. -/
theorem length_flatMap_two (n : ℕ) (f : ℕ → List ℤ) (h : ∀ i, (f i).length = 2) :
    ((List.range n).flatMap f).length = 2 * n := by
  induction n with
  | zero => simp
  | succ m ih =>
    simp only [List.range_succ, List.flatMap_append, List.length_append, ih]
    simp [h m]
    omega

/-- Both zero-initialisations have the requested length. -/
theorem pads0_length (known : Bool) (n : ℕ) :
    (if known then np_zeros n else tf_zeros n).length = n := by
  cases known <;> simp [np_zeros, tf_zeros]

/-- C7: when `ceil_mode` is true and the padding is not a `same*` string,
`calc_pads_pooling` returns the `ceil_mode=false` pads plus, per axis,
extra padding in the end slot only - zero in the begin slot and exactly
`(ceil(out_size) - floor(out_size)) * stride` in the end slot, where
`out_size = (dim_size - filter_size) / stride` over the effective shape
`in_size + ` the pads accumulated so far; when the padding is a `same*`
string the ceil-mode adjustment is skipped entirely (the result is the
same with and without `ceil_mode`). -/
theorem C7_ceil_mode_end_only :
    (∀ (kernel_shape strides dilations : List ℤ) (padding : Padding) (is_known_shape : Bool)
       (spatial_size : ℕ) (in_spatial_shape base : List ℤ),
      (match padding with
       | Padding.list _ => true
       | Padding.str s => !(py_startswith (py_lower s) ("same"))) = true →
      calc_pads_pooling kernel_shape strides dilations padding is_known_shape spatial_size
        in_spatial_shape false = .ok base →
      spatial_size ≤ in_spatial_shape.length → spatial_size ≤ kernel_shape.length →
      spatial_size ≤ dilations.length → spatial_size ≤ strides.length →
      calc_pads_pooling kernel_shape strides dilations padding is_known_shape spatial_size
        in_spatial_shape true =
        .ok (List.zipWith (fun x y => x + y) base
          ((List.range spatial_size).flatMap (fun i =>
            let dim_size : ℤ := in_spatial_shape.getD i 0 + base.getD (i * 2) 0 +
              base.getD (i * 2 + 1) 0
            let filter_size : ℤ := (kernel_shape.getD i 0 - 1) * dilations.getD i 0 + 1
            let out_size : ℚ := ((dim_size - filter_size : ℤ) : ℚ) / ((strides.getD i 0 : ℤ) : ℚ)
            [0, (⌈out_size⌉ - ⌊out_size⌋) * strides.getD i 0])))) ∧
    (∀ (kernel_shape strides dilations : List ℤ) (s : String) (is_known_shape : Bool)
       (spatial_size : ℕ) (in_spatial_shape : List ℤ),
      py_startswith (py_lower s) ("same") = true →
      calc_pads_pooling kernel_shape strides dilations (.str s) is_known_shape spatial_size
        in_spatial_shape true =
      calc_pads_pooling kernel_shape strides dilations (.str s) is_known_shape spatial_size
        in_spatial_shape false) := by
  constructor
  · intro ks st dil padding known ss iss base hca hbase hiss hks hdil hst
    cases padding with
    | str s =>
      simp only [Bool.not_eq_true'] at hca
      simp only [calc_pads_pooling, hca, Bool.false_eq_true, if_false, Bool.false_and,
        except_bind_ok] at hbase
      injection hbase with hb
      simp only [calc_pads_pooling, hca, Bool.false_eq_true, if_false, Bool.true_and,
        Bool.not_false, if_true, Except.bind]
      rw [hb]
      have hblen : base.length = ss * 2 := by rw [← hb, pads0_length]
      rw [if_pos ⟨hiss, by omega⟩]
      simp only [calc_pads_ceil_mode_pooling]
      rw [if_pos ⟨by simp, hks, hdil, hst⟩]
      simp only [vec_add]
      rw [if_pos (by
        rw [hblen, length_flatMap_two ss _ (fun i => by simp)]; ring)]
      congr 1
      apply congrArg
      apply flatMap_range_congr
      intro i hi
      rw [getD_map_range ss i _ hi]
      cases known <;> simp [np_ceil_sub_floor, tf_ceil_sub_floor]
    | list l =>
      simp only [calc_pads_pooling, Bool.false_and, Bool.false_eq_true, if_false,
        except_bind_ok] at hbase
      simp only [calc_pads_pooling, Bool.true_and, if_true, Except.bind]
      cases hexp : calc_pads_explicit_pooling l ss with
      | error e =>
        rw [hexp] at hbase
        simp [Except.bind] at hbase
      | ok e =>
        rw [hexp] at hbase
        simp only [Except.bind] at hbase
        have hblen : base.length = ss * 2 := by
          rw [vec_add_length hbase, pads0_length]
        simp only [hbase, if_true]
        rw [if_pos ⟨hiss, by omega⟩]
        simp only [calc_pads_ceil_mode_pooling]
        rw [if_pos ⟨by simp, hks, hdil, hst⟩]
        simp only [vec_add]
        rw [if_pos (by
          rw [hblen, length_flatMap_two ss _ (fun i => by simp)]; ring)]
        congr 1
        apply congrArg
        apply flatMap_range_congr
        intro i hi
        rw [getD_map_range ss i _ hi]
        cases known <;> simp [np_ceil_sub_floor, tf_ceil_sub_floor]
  · intro ks st dil s known ss iss hsw
    simp only [calc_pads_pooling, hsw, if_true, calc_pads_same_pooling, Except.bind]

/-- C7, witness: the end-only ceil adjustment at kernel `[3]`, stride
`[2]`, dilation `[1]`, explicit pads `[1, 1]`, input size `[10]` (base
pads `[1, 1]`, effective size 12, `out_size = 9/2`, extra end pad
`1 * 2 = 2`), and the skipped adjustment for `same_upper`. -/
theorem C7_witness :
    calc_pads_pooling [3] [2] [1] (.list [1, 1]) true 1 [10] true =
      .ok (List.zipWith (fun x y => x + y) [1, 1]
        ((List.range 1).flatMap (fun i =>
          let dim_size : ℤ := [10].getD i 0 + [1, 1].getD (i * 2) 0 + [1, 1].getD (i * 2 + 1) 0
          let filter_size : ℤ := ([3].getD i 0 - 1) * [1].getD i 0 + 1
          let out_size : ℚ := ((dim_size - filter_size : ℤ) : ℚ) / (([2].getD i 0 : ℤ) : ℚ)
          [0, (⌈out_size⌉ - ⌊out_size⌋) * [2].getD i 0]))) ∧
    calc_pads_pooling [3] [2] [1] (.str ("same_upper")) true 1 [10] true =
      calc_pads_pooling [3] [2] [1] (.str ("same_upper")) true 1 [10] false :=
  ⟨C7_ceil_mode_end_only.1 [3] [2] [1] (.list [1, 1]) true 1 [10] [1, 1] rfl rfl
    (by norm_num) (by norm_num) (by norm_num) (by norm_num),
   C7_ceil_mode_end_only.2 [3] [2] [1] ("same_upper") true 1 [10] (by decide)⟩

/-- C10, counterexample: at `x = 0` the claim fails - `alternative_asin(0)`
is NaN (the sign term divides `0/0`), so it does not match
`math.asin(0) = 0` within any tolerance. -/
theorem C10_counterexample_nan_at_zero :
    ¬ (∃ v, alternative_asin 0 = some v ∧ |v - Real.arcsin 0| ≤ 1/1000) := by
  have h : alternative_asin (0 : ℝ) = none := by simp [alternative_asin]
  rintro ⟨v, hv, -⟩
  rw [h] at hv
  exact Option.noConfusion hv

/-- C10, amended: at `x = 0` both builders return NaN (modelled `none`);
at each of `x = 1/2, 1, -1` the builders return finite values matching
`math.asin`/`math.acos` within `1/1000`, and their sum matches `pi/2`
within `1/1000`. -/
theorem C10_approx_amended :
    (alternative_asin 0 = none ∧ alternative_acos 0 = none) ∧
    ((∃ v, alternative_asin (1/2) = some v ∧ |v - Real.arcsin (1/2)| ≤ 1/1000) ∧
     (∃ v, alternative_asin 1 = some v ∧ |v - Real.arcsin 1| ≤ 1/1000) ∧
     (∃ v, alternative_asin (-1) = some v ∧ |v - Real.arcsin (-1)| ≤ 1/1000)) ∧
    ((∃ v, alternative_acos (1/2) = some v ∧ |v - Real.arccos (1/2)| ≤ 1/1000) ∧
     (∃ v, alternative_acos 1 = some v ∧ |v - Real.arccos 1| ≤ 1/1000) ∧
     (∃ v, alternative_acos (-1) = some v ∧ |v - Real.arccos (-1)| ≤ 1/1000)) ∧
    ((∃ a b, alternative_asin (1/2) = some a ∧ alternative_acos (1/2) = some b ∧
        |a + b - Real.pi/2| ≤ 1/1000) ∧
     (∃ a b, alternative_asin 1 = some a ∧ alternative_acos 1 = some b ∧
        |a + b - Real.pi/2| ≤ 1/1000) ∧
     (∃ a b, alternative_asin (-1) = some a ∧ alternative_acos (-1) = some b ∧
        |a + b - Real.pi/2| ≤ 1/1000)) := by
  have habs2 : |(1/2 : ℝ)| = 1/2 := abs_of_nonneg (by norm_num)
  have hgate2 : ¬(|(1/2 : ℝ)| = 0 ∨ 1 - |(1/2 : ℝ)| < 0) := by rw [habs2]; norm_num
  have hmin2 : min (1/2 : ℝ) 0 = 0 := min_eq_right (by norm_num)
  have habs1 : |(1 : ℝ)| = 1 := abs_one
  have hgate1 : ¬(|(1 : ℝ)| = 0 ∨ 1 - |(1 : ℝ)| < 0) := by rw [habs1]; norm_num
  have hmin1 : min (1 : ℝ) 0 = 0 := min_eq_right (by norm_num)
  have habsm : |(-1 : ℝ)| = 1 := by rw [abs_neg, abs_one]
  have hgatem : ¬(|(-1 : ℝ)| = 0 ∨ 1 - |(-1 : ℝ)| < 0) := by rw [habsm]; norm_num
  have hminm : min (-1 : ℝ) 0 = -1 := min_eq_left (by norm_num)
  have hasin2 : alternative_asin (1/2 : ℝ) =
      some (py_pi * 0.5 - Real.sqrt (1/2) * asin_poly (1/2)) := by
    simp only [alternative_asin, if_neg hgate2, habs2, hmin2]
    norm_num
  have hacos2 : alternative_acos (1/2 : ℝ) = some (asin_poly (1/2) * Real.sqrt (1/2)) := by
    simp only [alternative_acos, if_neg hgate2, habs2, hmin2]
    norm_num
  have hasin1 : alternative_asin (1 : ℝ) = some (py_pi * 0.5) := by
    simp only [alternative_asin, if_neg hgate1, habs1, hmin1]
    norm_num [Real.sqrt_zero]
  have hacos1 : alternative_acos (1 : ℝ) = some 0 := by
    simp only [alternative_acos, if_neg hgate1, habs1, hmin1]
    norm_num [Real.sqrt_zero]
  have hasinm : alternative_asin (-1 : ℝ) = some (-(py_pi * 0.5)) := by
    simp only [alternative_asin, if_neg hgatem, habsm, hminm]
    norm_num [Real.sqrt_zero]
    ring
  have hacosm : alternative_acos (-1 : ℝ) = some py_pi := by
    simp only [alternative_acos, if_neg hgatem, habsm, hminm]
    norm_num [Real.sqrt_zero]
  have harcsin2 : Real.arcsin (1/2 : ℝ) = Real.pi / 6 := by
    rw [show (1/2 : ℝ) = Real.sin (Real.pi/6) by rw [Real.sin_pi_div_six]]
    exact Real.arcsin_sin (by linarith [Real.pi_pos]) (by linarith [Real.pi_pos])
  have harccos2 : Real.arccos (1/2 : ℝ) = Real.pi / 2 - Real.pi / 6 := by
    rw [Real.arccos_eq_pi_div_two_sub_arcsin, harcsin2]
  have hpoly : asin_poly (1/2 : ℝ) = 1.4808956875 := by norm_num [asin_poly]
  have hs1 : (0.70710678 : ℝ) < Real.sqrt (1/2) := (Real.lt_sqrt (by norm_num)).mpr (by norm_num)
  have hs2 : Real.sqrt (1/2 : ℝ) < 0.70710679 := (Real.sqrt_lt' (by norm_num)).mpr (by norm_num)
  have hpi1 : (3.141592 : ℝ) < Real.pi := Real.pi_gt_d6
  have hpi2 : Real.pi < (3.141593 : ℝ) := Real.pi_lt_d6
  refine ⟨⟨by simp [alternative_asin], by simp [alternative_acos]⟩,
    ⟨⟨_, hasin2, ?_⟩, ⟨_, hasin1, ?_⟩, ⟨_, hasinm, ?_⟩⟩,
    ⟨⟨_, hacos2, ?_⟩, ⟨_, hacos1, ?_⟩, ⟨_, hacosm, ?_⟩⟩,
    ⟨_, _, hasin2, hacos2, ?_⟩, ⟨_, _, hasin1, hacos1, ?_⟩, ⟨_, _, hasinm, hacosm, ?_⟩⟩
  · rw [harcsin2, hpoly, py_pi, abs_le]
    constructor <;> linarith [hs1, hs2, hpi1, hpi2]
  · rw [Real.arcsin_one, py_pi, abs_le]
    constructor <;> linarith [hpi1, hpi2]
  · rw [Real.arcsin_neg_one, py_pi, abs_le]
    constructor <;> linarith [hpi1, hpi2]
  · rw [harccos2, hpoly, abs_le]
    constructor <;> linarith [hs1, hs2, hpi1, hpi2]
  · rw [Real.arccos_one, abs_le]
    norm_num
  · rw [Real.arccos_neg_one, py_pi, abs_le]
    constructor <;> linarith [hpi1, hpi2]
  · rw [py_pi, abs_le]
    constructor <;> linarith [hpi1, hpi2]
  · rw [py_pi, abs_le]
    constructor <;> linarith [hpi1, hpi2]
  · rw [py_pi, abs_le]
    constructor <;> linarith [hpi1, hpi2]
